import Mathlib

/-!
Shallow embedding of `src/config.py`: a configuration resolver that reads
environment variables (optionally overlaid from a `.env` file), builds a
configuration record, and selects a named profile via `FLASK_ENV`.
-/

namespace ConfigLoader

/-- An environment state: a partial map from variable names to values.
`none` means the variable is unset; `some ""` means it is set to the empty
string (the two are distinguishable, exactly as in a POSIX process
environment). -/
def Env : Type := String → Option String

/-- Translation of Python `os.getenv(name, default)`: the variable's value
when it is set (including when set to the empty string), otherwise the
default. -/
def getenv (env : Env) (name dflt : String) : String :=
  (env name).getD dflt

/-- The class attributes of `Config` in `src/config.py`, plus the `DEBUG`
attribute that `DevelopmentConfig` adds.  `DEBUG` is `none` on the base
class (the attribute is not defined there) and `some true` on the
development profile.  `SQLALCHEMY_ENGINE_OPTIONS` is the literal dict
with the single key `pool_pre_ping`. -/
structure ConfigRecord where
  SECRET_KEY : String
  SQLALCHEMY_DATABASE_URI : String
  SQLALCHEMY_TRACK_MODIFICATIONS : Bool
  SQLALCHEMY_ENGINE_OPTIONS : List (String × Bool)
  DEBUG : Option Bool
deriving DecidableEq, Repr

/-- Translation of the `Config` class body of `src/config.py`, evaluated
against an explicit environment state (Python evaluates it once at import
time against the process environment). -/
def Config (env : Env) : ConfigRecord :=
  { SECRET_KEY := getenv env "SECRET_KEY" "change-me"
  , SQLALCHEMY_DATABASE_URI :=
      "mysql+pymysql://" ++ getenv env "MYSQL_USER" "root" ++ ":"
        ++ getenv env "MYSQL_PASSWORD" "" ++ "@"
        ++ getenv env "MYSQL_HOST" "127.0.0.1" ++ ":"
        ++ getenv env "MYSQL_PORT" "3306" ++ "/"
        ++ getenv env "MYSQL_DB" "inventory"
  , SQLALCHEMY_TRACK_MODIFICATIONS := false
  , SQLALCHEMY_ENGINE_OPTIONS := [("pool_pre_ping", true)]
  , DEBUG := none }

/-- Translation of `class DevelopmentConfig(Config)`: it inherits every
attribute of `Config` and overrides `DEBUG = True`. -/
def DevelopmentConfig (env : Env) : ConfigRecord :=
  { Config env with DEBUG := some true }

/-- The two profile classes that `config_map` can name. -/
inductive ProfileType where
  | config
  | developmentConfig
deriving DecidableEq, Repr

/-- Translation of the `config_map` dict of `src/config.py`. -/
def config_map : List (String × ProfileType) :=
  [("development", ProfileType.developmentConfig), ("default", ProfileType.config)]

/-- Translation of Python `dict.get(key, default)` on an association list. -/
def dictGet (m : List (String × ProfileType)) (k : String) (d : ProfileType) :
    ProfileType :=
  match m.find? (fun p => p.1 == k) with
  | some p => p.2
  | none => d

/-- Translation of `get_config` in `src/config.py`: read `FLASK_ENV` with
default `"development"`, then look the value up in `config_map`, falling
back to `Config`. -/
def get_config (env : Env) : ProfileType :=
  dictGet config_map (getenv env "FLASK_ENV" "development") ProfileType.config

/-- The record that a selected profile class denotes, under a given
environment state. -/
def ProfileType.record (p : ProfileType) (env : Env) : ConfigRecord :=
  match p with
  | ProfileType.config => Config env
  | ProfileType.developmentConfig => DevelopmentConfig env

/-- Splits a character list at its first `=` sign into key and value;
`none` when there is no `=` sign. -/
def splitOnEq (cs : List Char) : Option (List Char × List Char) :=
  match cs with
  | [] => none
  | c :: rest =>
      if c = '=' then some ([], rest)
      else
        match splitOnEq rest with
        | some kv => some (c :: kv.1, kv.2)
        | none => none

/-- Modelled from the spec: `load_dotenv` comes from the third-party
`python-dotenv` package, whose code is not in `src/`.  A `.env` line is
parsed as `KEY=VALUE` at the first `=` sign (the value may contain
further `=` signs); a line with no `=` sign is ignored. -/
def parseLine (line : String) : Option (String × String) :=
  match splitOnEq line.data with
  | some kv => some (String.mk kv.1, String.mk kv.2)
  | none => none

/-- Modelled from the spec: inject one parsed key/value pair into the
environment "without overwriting variables already set there". -/
def setIfUnset (env : Env) (k v : String) : Env :=
  fun name => if name = k then some ((env k).getD v) else env name

/-- Modelled from the spec: `load_dotenv` parses the file as key=value
lines and injects each into the process environment without overwriting
variables already set there. -/
def load_dotenv (lines : List String) (env : Env) : Env :=
  lines.foldl
    (fun e line =>
      match parseLine line with
      | some kv => setIfUnset e kv.1 kv.2
      | none => e)
    env

/-- Translation of the module-level overlay step of `src/config.py`:
`if ENV_PATH.exists(): load_dotenv(ENV_PATH)`.  The file-system state is
abstracted to whether the file exists and, when it does, its lines. -/
def overlayStep (envPathExists : Bool) (lines : List String) (env : Env) : Env :=
  if envPathExists then load_dotenv lines env else env

/-- The environment state with no variable set. -/
def emptyEnv : Env := fun _ => none

/-- The environment state with exactly one variable set. -/
def singleEnv (k v : String) : Env :=
  fun name => if name = k then some v else none

end ConfigLoader

namespace ConfigLoader

lemma getenv_unset (env : Env) (n d : String) (h : env n = none) :
    getenv env n d = d := by
  simp [getenv, h]

lemma getenv_set (env : Env) (n d v : String) (h : env n = some v) :
    getenv env n d = v := by
  simp [getenv, h]

lemma setIfUnset_keeps_set (env : Env) (k v n w : String) (h : env n = some w) :
    setIfUnset env k v n = some w := by
  unfold setIfUnset
  by_cases hnk : n = k
  · subst hnk
    simp [h]
  · simp [hnk, h]

lemma load_dotenv_keeps_set (lines : List String) (env : Env) (k w : String)
    (h : env k = some w) : load_dotenv lines env k = some w := by
  induction lines generalizing env with
  | nil => exact h
  | cons line rest ih =>
      unfold load_dotenv
      simp only [List.foldl_cons]
      cases hp : parseLine line with
      | none =>
          simp only [hp]
          exact ih env h
      | some kv =>
          simp only [hp]
          exact ih (setIfUnset env kv.1 kv.2) (setIfUnset_keeps_set env kv.1 kv.2 k w h)

end ConfigLoader

namespace ConfigLoader

/-- C1 (counterexample): with `FLASK_ENV` unset, `get_config` does NOT
return the default profile `Config`: the selector defaults to
`"development"`, so `DevelopmentConfig` is returned. -/
theorem C1_counterexample :
    get_config emptyEnv = ProfileType.developmentConfig ∧
    get_config emptyEnv ≠ ProfileType.config := by
  constructor
  · rfl
  · decide

/-- C1 (amended): `get_config` never fails; if `FLASK_ENV` is set to a
value that is not a key of `config_map`, it returns the default profile
`Config`, and if `FLASK_ENV` is unset the selector defaults to
`"development"`, so `DevelopmentConfig` is returned. -/
theorem C1_fallback (env : Env) :
    (∀ s, env "FLASK_ENV" = some s → s ≠ "development" → s ≠ "default" →
      get_config env = ProfileType.config) ∧
    (env "FLASK_ENV" = none → get_config env = ProfileType.developmentConfig) := by
  constructor
  · intro s hs h1 h2
    unfold get_config dictGet config_map
    rw [getenv_set env "FLASK_ENV" "development" s hs]
    have hb1 : ("development" == s) = false := beq_eq_false_iff_ne.mpr (Ne.symm h1)
    have hb2 : ("default" == s) = false := beq_eq_false_iff_ne.mpr (Ne.symm h2)
    simp [List.find?, hb1, hb2]
  · intro h
    unfold get_config dictGet config_map
    rw [getenv_unset env "FLASK_ENV" "development" h]
    rfl

/-- C1 (witness): instances of the amended claim at concrete inputs. -/
theorem C1_fallback_witness :
    get_config (singleEnv "FLASK_ENV" "staging") = ProfileType.config ∧
    get_config emptyEnv = ProfileType.developmentConfig :=
  ⟨(C1_fallback (singleEnv "FLASK_ENV" "staging")).1 "staging" (by decide)
      (by decide) (by decide),
   (C1_fallback emptyEnv).2 rfl⟩

end ConfigLoader

namespace ConfigLoader

/-- C2 (counterexample): `MYSQL_HOST` set to the empty string does NOT
fall back to the default host `127.0.0.1`: the empty string is used
verbatim, yielding an empty host segment in the connection string. -/
theorem C2_counterexample :
    (Config (singleEnv "MYSQL_HOST" "")).SQLALCHEMY_DATABASE_URI
        = "mysql+pymysql://root:@:3306/inventory" ∧
    (Config (singleEnv "MYSQL_HOST" "")).SQLALCHEMY_DATABASE_URI
        ≠ "mysql+pymysql://root:@127.0.0.1:3306/inventory" := by
  constructor
  · rfl
  · decide

/-- C2 (amended): every field of the built record reads its environment
variable via `getenv`, and `getenv` falls back to the hardcoded default
exactly when the variable is unset; a variable that is set — even to the
empty string — is used verbatim. -/
theorem C2_default_on_unset (env : Env) :
    (Config env).SECRET_KEY = getenv env "SECRET_KEY" "change-me" ∧
    ((Config env).SQLALCHEMY_DATABASE_URI =
      "mysql+pymysql://" ++ getenv env "MYSQL_USER" "root" ++ ":"
        ++ getenv env "MYSQL_PASSWORD" "" ++ "@"
        ++ getenv env "MYSQL_HOST" "127.0.0.1" ++ ":"
        ++ getenv env "MYSQL_PORT" "3306" ++ "/"
        ++ getenv env "MYSQL_DB" "inventory") ∧
    (∀ n d, env n = none → getenv env n d = d) ∧
    (∀ n d v, env n = some v → getenv env n d = v) := by
  refine ⟨rfl, rfl, ?_, ?_⟩
  · intro n d h
    exact getenv_unset env n d h
  · intro n d v h
    exact getenv_set env n d v h

/-- C2 (witness): at concrete inputs, an unset `MYSQL_HOST` yields the
default host, while `MYSQL_HOST` set to the empty string yields the empty
string verbatim. -/
theorem C2_default_on_unset_witness :
    getenv emptyEnv "MYSQL_HOST" "127.0.0.1" = "127.0.0.1" ∧
    getenv (singleEnv "MYSQL_HOST" "") "MYSQL_HOST" "127.0.0.1" = "" :=
  ⟨(C2_default_on_unset emptyEnv).2.2.1 "MYSQL_HOST" "127.0.0.1" rfl,
   (C2_default_on_unset (singleEnv "MYSQL_HOST" "")).2.2.2 "MYSQL_HOST"
      "127.0.0.1" "" (by decide)⟩

/-- C3: with no relevant environment variable set, building the record
succeeds and every field equals its documented default: secret key
`change-me`, connection string `mysql+pymysql://root:@127.0.0.1:3306/inventory`,
change-tracking flag `false`, and engine options with `pool_pre_ping`
enabled. -/
theorem C3_all_defaults :
    Config emptyEnv =
      { SECRET_KEY := "change-me"
      , SQLALCHEMY_DATABASE_URI := "mysql+pymysql://root:@127.0.0.1:3306/inventory"
      , SQLALCHEMY_TRACK_MODIFICATIONS := false
      , SQLALCHEMY_ENGINE_OPTIONS := [("pool_pre_ping", true)]
      , DEBUG := none } := by
  rfl

/-- C4: for every environment state, the record of the `"development"`
profile registered in `config_map` has the debug flag set to true and
agrees with the default profile record `Config` on every other field. -/
theorem C4_development_frame (env : Env) :
    dictGet config_map "development" ProfileType.config
        = ProfileType.developmentConfig ∧
    (DevelopmentConfig env).DEBUG = some true ∧
    (DevelopmentConfig env).SECRET_KEY = (Config env).SECRET_KEY ∧
    (DevelopmentConfig env).SQLALCHEMY_DATABASE_URI
        = (Config env).SQLALCHEMY_DATABASE_URI ∧
    (DevelopmentConfig env).SQLALCHEMY_TRACK_MODIFICATIONS
        = (Config env).SQLALCHEMY_TRACK_MODIFICATIONS ∧
    (DevelopmentConfig env).SQLALCHEMY_ENGINE_OPTIONS
        = (Config env).SQLALCHEMY_ENGINE_OPTIONS :=
  ⟨rfl, rfl, rfl, rfl, rfl, rfl⟩

end ConfigLoader

namespace ConfigLoader

/-- C5: with exactly one environment variable set, to a non-empty value
`v`, the corresponding field of the built record equals `v` verbatim (for
database sub-fields, `v` appears verbatim in its segment of the connection
string) and every other field keeps its documented default; setting only
`FLASK_ENV` leaves every record field at its default. -/
theorem C5_single_var (v : String) (hv : v ≠ "") :
    Config (singleEnv "SECRET_KEY" v) =
      { SECRET_KEY := v
      , SQLALCHEMY_DATABASE_URI := "mysql+pymysql://root:@127.0.0.1:3306/inventory"
      , SQLALCHEMY_TRACK_MODIFICATIONS := false
      , SQLALCHEMY_ENGINE_OPTIONS := [("pool_pre_ping", true)]
      , DEBUG := none } ∧
    Config (singleEnv "MYSQL_USER" v) =
      { SECRET_KEY := "change-me"
      , SQLALCHEMY_DATABASE_URI := "mysql+pymysql://" ++ v ++ ":@127.0.0.1:3306/inventory"
      , SQLALCHEMY_TRACK_MODIFICATIONS := false
      , SQLALCHEMY_ENGINE_OPTIONS := [("pool_pre_ping", true)]
      , DEBUG := none } ∧
    Config (singleEnv "MYSQL_PASSWORD" v) =
      { SECRET_KEY := "change-me"
      , SQLALCHEMY_DATABASE_URI := "mysql+pymysql://root:" ++ v ++ "@127.0.0.1:3306/inventory"
      , SQLALCHEMY_TRACK_MODIFICATIONS := false
      , SQLALCHEMY_ENGINE_OPTIONS := [("pool_pre_ping", true)]
      , DEBUG := none } ∧
    Config (singleEnv "MYSQL_HOST" v) =
      { SECRET_KEY := "change-me"
      , SQLALCHEMY_DATABASE_URI := "mysql+pymysql://root:@" ++ v ++ ":3306/inventory"
      , SQLALCHEMY_TRACK_MODIFICATIONS := false
      , SQLALCHEMY_ENGINE_OPTIONS := [("pool_pre_ping", true)]
      , DEBUG := none } ∧
    Config (singleEnv "MYSQL_PORT" v) =
      { SECRET_KEY := "change-me"
      , SQLALCHEMY_DATABASE_URI := "mysql+pymysql://root:@127.0.0.1:" ++ v ++ "/inventory"
      , SQLALCHEMY_TRACK_MODIFICATIONS := false
      , SQLALCHEMY_ENGINE_OPTIONS := [("pool_pre_ping", true)]
      , DEBUG := none } ∧
    Config (singleEnv "MYSQL_DB" v) =
      { SECRET_KEY := "change-me"
      , SQLALCHEMY_DATABASE_URI := "mysql+pymysql://root:@127.0.0.1:3306/" ++ v
      , SQLALCHEMY_TRACK_MODIFICATIONS := false
      , SQLALCHEMY_ENGINE_OPTIONS := [("pool_pre_ping", true)]
      , DEBUG := none } ∧
    Config (singleEnv "FLASK_ENV" v) =
      { SECRET_KEY := "change-me"
      , SQLALCHEMY_DATABASE_URI := "mysql+pymysql://root:@127.0.0.1:3306/inventory"
      , SQLALCHEMY_TRACK_MODIFICATIONS := false
      , SQLALCHEMY_ENGINE_OPTIONS := [("pool_pre_ping", true)]
      , DEBUG := none } := by
  refine ⟨?_, ?_, ?_, ?_, ?_, ?_, ?_⟩ <;>
    · simp only [Config, getenv, singleEnv, ConfigRecord.mk.injEq, String.reduceEq,
        reduceIte, Option.getD_some, Option.getD_none, String.append_assoc,
        and_true, true_and]
      rfl

/-- C5 (witness): the host conjunct of the claim at the concrete value
`db.example`. -/
theorem C5_single_var_witness :
    Config (singleEnv "MYSQL_HOST" "db.example") =
      { SECRET_KEY := "change-me"
      , SQLALCHEMY_DATABASE_URI := "mysql+pymysql://root:@" ++ "db.example" ++ ":3306/inventory"
      , SQLALCHEMY_TRACK_MODIFICATIONS := false
      , SQLALCHEMY_ENGINE_OPTIONS := [("pool_pre_ping", true)]
      , DEBUG := none } :=
  (C5_single_var "db.example" (by decide)).2.2.2.1

end ConfigLoader

namespace ConfigLoader

/-- C6: if the `.env` file exists and contains the line
`MYSQL_HOST=db.internal`, and the process environment does not already
set `MYSQL_HOST`, then after the overlay step the built record's
connection string carries `db.internal` in its host segment; and the
overlay never overwrites a variable already set in the process
environment. -/
theorem C6_overlay_host (env : Env) (h : env "MYSQL_HOST" = none) :
    (Config (overlayStep true ["MYSQL_HOST=db.internal"] env)).SQLALCHEMY_DATABASE_URI
      = "mysql+pymysql://" ++ getenv env "MYSQL_USER" "root" ++ ":"
        ++ getenv env "MYSQL_PASSWORD" "" ++ "@" ++ "db.internal" ++ ":"
        ++ getenv env "MYSQL_PORT" "3306" ++ "/" ++ getenv env "MYSQL_DB" "inventory" ∧
    (∀ lines k w, env k = some w → load_dotenv lines env k = some w) := by
  constructor
  · have hov : overlayStep true ["MYSQL_HOST=db.internal"] env
        = setIfUnset env "MYSQL_HOST" "db.internal" := rfl
    rw [hov]
    simp only [Config, getenv, setIfUnset, String.reduceEq, reduceIte, h,
      Option.getD_some, Option.getD_none]
  · intro lines k w hw
    exact load_dotenv_keeps_set lines env k w hw

/-- C6 (witness): the claim instantiated at the empty environment. -/
theorem C6_overlay_host_witness :
    (Config (overlayStep true ["MYSQL_HOST=db.internal"] emptyEnv)).SQLALCHEMY_DATABASE_URI
      = "mysql+pymysql://" ++ getenv emptyEnv "MYSQL_USER" "root" ++ ":"
        ++ getenv emptyEnv "MYSQL_PASSWORD" "" ++ "@" ++ "db.internal" ++ ":"
        ++ getenv emptyEnv "MYSQL_PORT" "3306" ++ "/"
        ++ getenv emptyEnv "MYSQL_DB" "inventory" ∧
    (∀ lines k w, emptyEnv k = some w → load_dotenv lines emptyEnv k = some w) :=
  C6_overlay_host emptyEnv rfl

/-- C7: profile lookup is case-sensitive: any selector value that is not
exactly a key of `config_map` — in particular a key in different letter
case, such as `"Development"` or `"DEFAULT"` — is treated as not found
and `get_config` returns the default class `Config`. -/
theorem C7_case_sensitive_lookup (env : Env) (s : String)
    (hs : env "FLASK_ENV" = some s) (h1 : s ≠ "development") (h2 : s ≠ "default") :
    get_config env = ProfileType.config := by
  unfold get_config dictGet config_map
  rw [getenv_set env "FLASK_ENV" "development" s hs]
  have hb1 : ("development" == s) = false := beq_eq_false_iff_ne.mpr (Ne.symm h1)
  have hb2 : ("default" == s) = false := beq_eq_false_iff_ne.mpr (Ne.symm h2)
  simp [List.find?, hb1, hb2]

/-- C7 (witness): the case-variants of the two registry keys fall back to
`Config`. -/
theorem C7_case_sensitive_witness :
    get_config (singleEnv "FLASK_ENV" "Development") = ProfileType.config ∧
    get_config (singleEnv "FLASK_ENV" "DEFAULT") = ProfileType.config :=
  ⟨C7_case_sensitive_lookup (singleEnv "FLASK_ENV" "Development") "Development"
      (by decide) (by decide) (by decide),
   C7_case_sensitive_lookup (singleEnv "FLASK_ENV" "DEFAULT") "DEFAULT"
      (by decide) (by decide) (by decide)⟩

/-- C8: when the `.env` file is absent, the overlay step is a no-op: the
environment is unchanged, the built records and the selected profile are
the same as if no overlay had been attempted, and nothing fails. -/
theorem C8_overlay_absent (lines : List String) (env : Env) :
    overlayStep false lines env = env ∧
    Config (overlayStep false lines env) = Config env ∧
    DevelopmentConfig (overlayStep false lines env) = DevelopmentConfig env ∧
    get_config (overlayStep false lines env) = get_config env :=
  ⟨rfl, rfl, rfl, rfl⟩

/-- C9: `get_config` is total and its result always lies in the registry:
for every environment state it returns either `DevelopmentConfig` or
`Config`, never anything else and never a failure. -/
theorem C9_get_config_total (env : Env) :
    get_config env = ProfileType.developmentConfig ∨
    get_config env = ProfileType.config := by
  unfold get_config dictGet
  cases hf : List.find? (fun p => p.1 == getenv env "FLASK_ENV" "development") config_map with
  | none => right; simp [hf]
  | some p =>
      have hmem : p ∈ config_map := List.mem_of_find?_eq_some hf
      simp only [config_map, List.mem_cons, List.mem_singleton,
        List.not_mem_nil, or_false] at hmem
      rcases hmem with hp | hp <;> subst hp <;> simp [hf]

/-- C10: the profile selector does not influence the field values: two
environment states that agree everywhere except possibly on `FLASK_ENV`
yield identical built records for both profile classes. -/
theorem C10_selector_noninterference (env1 env2 : Env)
    (h : ∀ k, k ≠ "FLASK_ENV" → env1 k = env2 k) :
    Config env1 = Config env2 ∧ DevelopmentConfig env1 = DevelopmentConfig env2 := by
  have hS := h "SECRET_KEY" (by decide)
  have hU := h "MYSQL_USER" (by decide)
  have hP := h "MYSQL_PASSWORD" (by decide)
  have hH := h "MYSQL_HOST" (by decide)
  have hPo := h "MYSQL_PORT" (by decide)
  have hD := h "MYSQL_DB" (by decide)
  constructor <;> simp [Config, DevelopmentConfig, getenv, hS, hU, hP, hH, hPo, hD]

/-- C10 (witness): an environment that sets only `FLASK_ENV` builds the
same records as the empty environment. -/
theorem C10_selector_noninterference_witness :
    Config (singleEnv "FLASK_ENV" "production") = Config emptyEnv ∧
    DevelopmentConfig (singleEnv "FLASK_ENV" "production")
      = DevelopmentConfig emptyEnv :=
  C10_selector_noninterference (singleEnv "FLASK_ENV" "production") emptyEnv
    (fun k hk => by simp [singleEnv, emptyEnv, hk])

end ConfigLoader
